import Mathlib

/-!
A shallow embedding of the inbox-listing decoding layer of the go-reddit
client (`reddit/message.go`), together with the id-guarded message
endpoints. JSON documents are modelled as an inductive `Json` value
(the result of parsing the response bytes); Go's `encoding/json`
semantics are reproduced explicitly:

* unmarshalling a JSON object into a struct processes the keys in input
  order (a later duplicate key overwrites an earlier one), ignores
  unknown keys, leaves a field untouched when its key is absent, and
  fails on a type mismatch (Go records the error and keeps going, but
  the call still returns a non-nil error, so in this model a mismatch
  simply yields an error);
* unmarshalling JSON `null` into a struct or string or bool is a no-op
  on the current value, while `null` into a pointer field sets it to nil
  (here: `none`) and `null` into a slice makes it the nil slice;
* a missing key never produces an error.

Go field keys are matched exactly here; Go additionally matches keys
case-insensitively, which no decoded shape in this development relies on.

Go slices are modelled as `Option (List α)` so the nil slice (`none`)
stays distinct from the non-nil empty slice (`some []`), which the
`inboxThings.init` contract is about. Mutation of a struct through a
pointer receiver is modelled by passing the receiver in and returning
the updated value; fallible decoding returns `Except Unit`.

JSON numbers are modelled as integers: no decoded field in scope of the
claims carries a number except the timestamp, whose exact numeric type
is irrelevant to every claim.
-/

set_option linter.dupNamespace false

namespace GoReddit

/-- A parsed JSON document. -/
inductive Json where
  | null
  | bool (b : Bool)
  | num (n : Int)
  | str (s : String)
  | arr (elems : List Json)
  | obj (fields : List (String × Json))

/-- Modelled from the spec: the kind code constants for the heterogeneous
inbox feed are declared in a repository file not present under `src/`;
the spec fixes the "comment-reply" code as "t1". -/
def kindComment : String := "t1"

/-- Modelled from the spec: the "private-message" kind code, fixed by the
spec as "t4". -/
def kindMessage : String := "t4"

/-- `Message` from `message.go`: the unified item shape used for both
comment-reply and private-message inbox items. `Created` models the
`*Timestamp` pointer field (`none` = nil pointer); the timestamp payload
is modelled from the spec as a plain number, the `Timestamp` type itself
living in a repository file not under `src/`. Default values are the Go
zero values. -/
structure Message where
  ID : String := ""
  FullID : String := ""
  Created : Option Int := none
  Subject : String := ""
  Text : String := ""
  ParentID : String := ""
  Author : String := ""
  To : String := ""
  IsComment : Bool := false
deriving DecidableEq, Repr

/-- Go: unmarshal a JSON value into a string field whose current value is
`cur`. A string replaces it, `null` is a no-op, anything else is a type
error. -/
def unmarshalGoString (cur : String) : Json → Except Unit String
  | Json.str s => Except.ok s
  | Json.null => Except.ok cur
  | _ => Except.error ()

/-- Go: unmarshal a JSON value into a bool field whose current value is
`cur`. -/
def unmarshalGoBool (cur : Bool) : Json → Except Unit Bool
  | Json.bool b => Except.ok b
  | Json.null => Except.ok cur
  | _ => Except.error ()

/-- Go: unmarshal a JSON value into a `*Timestamp` field. `null` sets the
pointer to nil; a number allocates a timestamp. Modelled from the spec:
the `Timestamp` decoder itself is not under `src/`; the spec only says
the creation timestamp is nullable. -/
def unmarshalTimestampPtr (_cur : Option Int) : Json → Except Unit (Option Int)
  | Json.null => Except.ok none
  | Json.num n => Except.ok (some n)
  | _ => Except.error ()

/-- One step of unmarshalling a JSON object into a `Message`: dispatch on
the key (the struct's json tags: id, name, created_utc, subject, body,
parent_id, author, dest, was_comment), ignoring unknown keys. -/
def applyMessageField (m : Message) : String × Json → Except Unit Message
  | ("id", v) => (unmarshalGoString m.ID v).map fun s => { m with ID := s }
  | ("name", v) => (unmarshalGoString m.FullID v).map fun s => { m with FullID := s }
  | ("created_utc", v) => (unmarshalTimestampPtr m.Created v).map fun c => { m with Created := c }
  | ("subject", v) => (unmarshalGoString m.Subject v).map fun s => { m with Subject := s }
  | ("body", v) => (unmarshalGoString m.Text v).map fun s => { m with Text := s }
  | ("parent_id", v) => (unmarshalGoString m.ParentID v).map fun s => { m with ParentID := s }
  | ("author", v) => (unmarshalGoString m.Author v).map fun s => { m with Author := s }
  | ("dest", v) => (unmarshalGoString m.To v).map fun s => { m with To := s }
  | ("was_comment", v) => (unmarshalGoBool m.IsComment v).map fun b => { m with IsComment := b }
  | _ => Except.ok m

/-- Unmarshal the fields of a JSON object into a `Message`, in input
order. -/
def unmarshalMessageFields : Message → List (String × Json) → Except Unit Message
  | m, [] => Except.ok m
  | m, f :: rest =>
    match applyMessageField m f with
    | Except.ok m2 => unmarshalMessageFields m2 rest
    | Except.error e => Except.error e

/-- `json.Unmarshal(thing.Data, v)` with `v = new(Message)`: `none` is a
nil `RawMessage` (the data key was absent), which Go rejects with
"unexpected end of JSON input"; `null` is a no-op on the fresh zero
value; an object decodes field by field; anything else is a type error.
The result is `none` exactly when the Go call returns a non-nil error. -/
def unmarshalMessage : Option Json → Option Message
  | none => none
  | some Json.null => some {}
  | some (Json.obj fs) => (unmarshalMessageFields {} fs).toOption
  | some _ => none

/-- Modelled from the spec: the `thing` envelope struct `{kind, data}` is
declared in a repository file not under `src/`. `Kind` is the string
discriminator and `Data` the raw undecoded payload (`json.RawMessage`);
`none` means the data key was absent (nil `RawMessage`). -/
structure thing where
  Kind : String := ""
  Data : Option Json := none

/-- One step of unmarshalling a JSON object into a `thing`. -/
def applyThingField (t : thing) : String × Json → Except Unit thing
  | ("kind", v) => (unmarshalGoString t.Kind v).map fun s => { t with Kind := s }
  | ("data", v) => Except.ok { t with Data := some v }
  | _ => Except.ok t

/-- Unmarshal the fields of a JSON object into a `thing`, in input
order. -/
def unmarshalThingFields : thing → List (String × Json) → Except Unit thing
  | t, [] => Except.ok t
  | t, f :: rest =>
    match applyThingField t f with
    | Except.ok t2 => unmarshalThingFields t2 rest
    | Except.error e => Except.error e

/-- Unmarshal one element of the `children` array into a `thing`. -/
def unmarshalThing : Json → Except Unit thing
  | Json.null => Except.ok {}
  | Json.obj fs => unmarshalThingFields {} fs
  | _ => Except.error ()

/-- Unmarshal a list of JSON values as `[]thing`, elementwise. -/
def unmarshalThingElems : List Json → Except Unit (List thing)
  | [] => Except.ok []
  | e :: rest =>
    match unmarshalThing e, unmarshalThingElems rest with
    | Except.ok t, Except.ok ts => Except.ok (t :: ts)
    | Except.error er, _ => Except.error er
    | _, Except.error er => Except.error er

/-- `json.Unmarshal(b, &things)` with `things : []thing`: `null` yields
the nil slice (which the routing loop then ranges over vacuously, so it
is modelled as `[]`), an array decodes elementwise, anything else is a
type error. -/
def unmarshalListThing : Json → Except Unit (List thing)
  | Json.null => Except.ok []
  | Json.arr es => unmarshalThingElems es
  | _ => Except.error ()

/-- `inboxThings` from `message.go`: the two per-kind buckets. Each Go
slice is `Option (List Message)`, `none` being the nil slice (the Go
zero value, hence the defaults). -/
structure inboxThings where
  Comments : Option (List Message) := none
  Messages : Option (List Message) := none
deriving DecidableEq, Repr

/-- `inboxThings.init`: initializes or clears the inbox, setting both
buckets to fresh non-nil empty slices regardless of the prior state. -/
def inboxThings.init (_t : inboxThings) : inboxThings :=
  { Comments := some [], Messages := some [] }

/-- Go's `append` on a `[]*Message` slice: appending to the nil slice
produces a one-element slice. -/
def goAppend (xs : Option (List Message)) (v : Message) : Option (List Message) :=
  some (xs.getD [] ++ [v])

/-- One iteration of the routing loop of `inboxThings.UnmarshalJSON`:
switch on the thing's kind; on a recognized kind decode the payload into
a `Message` and append it to that kind's bucket when the decode
succeeds, dropping the item otherwise; drop items of unknown kind. -/
def routeThing (t : inboxThings) (th : thing) : inboxThings :=
  if th.Kind = kindComment then
    match unmarshalMessage th.Data with
    | some v => { t with Comments := goAppend t.Comments v }
    | none => t
  else if th.Kind = kindMessage then
    match unmarshalMessage th.Data with
    | some v => { t with Messages := goAppend t.Messages v }
    | none => t
  else t

/-- The routing loop over all parsed things, in input order. -/
def routeThings : inboxThings → List thing → inboxThings
  | t, [] => t
  | t, th :: rest => routeThings (routeThing t th) rest

/-- `inboxThings.UnmarshalJSON`: clear the receiver via `init`, parse the
raw bytes as `[]thing` (propagating that error), then route each thing
into its bucket; per-item decode failures are absorbed and the method
returns nil error. -/
def inboxThings.UnmarshalJSON (t : inboxThings) (b : Json) : Except Unit inboxThings :=
  let t2 := t.init
  match unmarshalListThing b with
  | Except.error e => Except.error e
  | Except.ok things => Except.ok (routeThings t2 things)

/-- `inboxListing` from `message.go`: children plus the pagination
cursors, with Go zero values as defaults. -/
structure inboxListing where
  Things : inboxThings := {}
  After : String := ""
  Before : String := ""
deriving DecidableEq, Repr

/-- One step of unmarshalling a JSON object into an `inboxListing`. The
`children` value goes through `inboxThings.UnmarshalJSON` (Go invokes
the custom unmarshaler on the current field value, including for
`null`). -/
def applyInboxListingField (l : inboxListing) : String × Json → Except Unit inboxListing
  | ("children", v) =>
    match inboxThings.UnmarshalJSON l.Things v with
    | Except.ok th => Except.ok { l with Things := th }
    | Except.error e => Except.error e
  | ("after", v) => (unmarshalGoString l.After v).map fun s => { l with After := s }
  | ("before", v) => (unmarshalGoString l.Before v).map fun s => { l with Before := s }
  | _ => Except.ok l

/-- Unmarshal the fields of a JSON object into an `inboxListing`, in
input order. -/
def unmarshalInboxListingFields : inboxListing → List (String × Json) → Except Unit inboxListing
  | l, [] => Except.ok l
  | l, f :: rest =>
    match applyInboxListingField l f with
    | Except.ok l2 => unmarshalInboxListingFields l2 rest
    | Except.error e => Except.error e

/-- Unmarshal a JSON value into an `inboxListing` field whose current
value is `l`: `null` is a no-op, an object decodes field by field,
anything else is a type error. -/
def unmarshalInboxListing (l : inboxListing) : Json → Except Unit inboxListing
  | Json.null => Except.ok l
  | Json.obj fs => unmarshalInboxListingFields l fs
  | _ => Except.error ()

/-- `rootInboxListing` from `message.go`: the outer `{kind, data}`
envelope. -/
structure rootInboxListing where
  Kind : String := ""
  Data : inboxListing := {}
deriving DecidableEq, Repr

/-- One step of unmarshalling a JSON object into a `rootInboxListing`. -/
def applyRootInboxListingField (r : rootInboxListing) : String × Json → Except Unit rootInboxListing
  | ("kind", v) => (unmarshalGoString r.Kind v).map fun s => { r with Kind := s }
  | ("data", v) =>
    match unmarshalInboxListing r.Data v with
    | Except.ok d => Except.ok { r with Data := d }
    | Except.error e => Except.error e
  | _ => Except.ok r

/-- Unmarshal the fields of a JSON object into a `rootInboxListing`, in
input order. -/
def unmarshalRootInboxListingFields : rootInboxListing → List (String × Json) → Except Unit rootInboxListing
  | r, [] => Except.ok r
  | r, f :: rest =>
    match applyRootInboxListingField r f with
    | Except.ok r2 => unmarshalRootInboxListingFields r2 rest
    | Except.error e => Except.error e

/-- The decode entry point: `client.Do` unmarshals the response body into
a fresh `root := new(rootInboxListing)` (as in `MessageService.inbox`),
so decoding starts from the zero value. -/
def unmarshalRootInboxListing : Json → Except Unit rootInboxListing
  | Json.null => Except.ok {}
  | Json.obj fs => unmarshalRootInboxListingFields {} fs
  | _ => Except.error ()

/-- `Messages` from `message.go`: one named view over a decoded listing.
The `Messages` field is a Go slice, so again `Option (List Message)`. -/
structure Messages where
  Messages : Option (List Message) := none
  After : String := ""
  Before : String := ""
deriving DecidableEq, Repr

/-- `rootInboxListing.getComments`. -/
def rootInboxListing.getComments (l : rootInboxListing) : Messages :=
  { Messages := l.Data.Things.Comments, After := l.Data.After, Before := l.Data.Before }

/-- `rootInboxListing.getMessages`. -/
def rootInboxListing.getMessages (l : rootInboxListing) : Messages :=
  { Messages := l.Data.Things.Messages, After := l.Data.After, Before := l.Data.Before }

/-- `strings.Join`. -/
def stringsJoin : List String → String → String
  | [], _ => ""
  | [s], _ => s
  | s :: rest, sep => s ++ sep ++ stringsJoin rest sep

/-- An HTTP request as assembled by the message endpoints before it is
handed to the transport layer: method, path and form body. -/
structure Request where
  method : String
  path : String
  form : List (String × String)
deriving DecidableEq, Repr

/-- `MessageService.Read`: with zero ids return the error before any
request is constructed; otherwise POST the comma-joined ids as the
single form field "id". The transport call itself (`client.Do`) is
outside the model. -/
def MessageService.Read (ids : List String) : Except String Request :=
  if ids.length = 0 then Except.error "must provide at least 1 id"
  else Except.ok { method := "POST", path := "api/read_message", form := [("id", stringsJoin ids ",")] }

/-- `MessageService.Unread`. -/
def MessageService.Unread (ids : List String) : Except String Request :=
  if ids.length = 0 then Except.error "must provide at least 1 id"
  else Except.ok { method := "POST", path := "api/unread_message", form := [("id", stringsJoin ids ",")] }

/-- `MessageService.Collapse`. -/
def MessageService.Collapse (ids : List String) : Except String Request :=
  if ids.length = 0 then Except.error "must provide at least 1 id"
  else Except.ok { method := "POST", path := "api/collapse_message", form := [("id", stringsJoin ids ",")] }

/-- `MessageService.Uncollapse`. -/
def MessageService.Uncollapse (ids : List String) : Except String Request :=
  if ids.length = 0 then Except.error "must provide at least 1 id"
  else Except.ok { method := "POST", path := "api/uncollapse_message", form := [("id", stringsJoin ids ",")] }

/-- The comment-bucket contribution of one parsed thing: the decoded
message when the kind is the comment code and the payload decodes,
nothing otherwise. -/
def commentPayload (th : thing) : Option Message :=
  if th.Kind = kindComment then unmarshalMessage th.Data else none

/-- The message-bucket contribution of one parsed thing. -/
def messagePayload (th : thing) : Option Message :=
  if th.Kind = kindMessage then unmarshalMessage th.Data else none

/-! Sample inputs used by the witness theorems below. -/

/-- A well-formed comment-reply child. -/
def childCommentValid : Json :=
  Json.obj [("kind", Json.str "t1"),
            ("data", Json.obj [("id", Json.str "c1"), ("was_comment", Json.bool true)])]

/-- A well-formed private-message child. -/
def childMessageValid : Json :=
  Json.obj [("kind", Json.str "t4"), ("data", Json.obj [("id", Json.str "m1")])]

/-- A child of an unrecognized kind. -/
def childUnknownKind : Json :=
  Json.obj [("kind", Json.str "t9"), ("data", Json.obj [])]

/-- A comment-reply child whose data payload is not an object. -/
def childMalformed : Json :=
  Json.obj [("kind", Json.str "t1"), ("data", Json.str "not-an-object")]

/-- The parsed `thing` for `childCommentValid`. -/
def thingCommentValid : thing :=
  { Kind := "t1", Data := some (Json.obj [("id", Json.str "c1"), ("was_comment", Json.bool true)]) }

/-- The parsed `thing` for `childMessageValid`. -/
def thingMessageValid : thing :=
  { Kind := "t4", Data := some (Json.obj [("id", Json.str "m1")]) }

/-- The parsed `thing` for `childUnknownKind`. -/
def thingUnknownKind : thing :=
  { Kind := "t9", Data := some (Json.obj []) }

/-- The parsed `thing` for `childMalformed`. -/
def thingMalformed : thing :=
  { Kind := "t1", Data := some (Json.str "not-an-object") }

/-! Helper lemmas about the routing loop. -/

/-- The two recognized kind codes are distinct. -/
theorem kindComment_ne_kindMessage : kindComment ≠ kindMessage := by
  decide

/-- Running the routing loop from non-nil buckets appends, in input
order, exactly the successfully decoded payload of each child of the
matching kind. -/
theorem routeThings_some (ths : List thing) :
    ∀ cs0 ms0 : List Message,
    routeThings { Comments := some cs0, Messages := some ms0 } ths =
      { Comments := some (cs0 ++ ths.filterMap commentPayload),
        Messages := some (ms0 ++ ths.filterMap messagePayload) } := by
  induction ths with
  | nil =>
    intro cs0 ms0
    simp [routeThings]
  | cons th rest ih =>
    intro cs0 ms0
    have hne : ¬ (kindMessage = kindComment) := fun h => kindComment_ne_kindMessage h.symm
    by_cases h1 : th.Kind = kindComment
    · have h2 : th.Kind ≠ kindMessage := by
        rw [h1]; exact kindComment_ne_kindMessage
      have hmp : messagePayload th = none := by
        simp [messagePayload, h2]
      cases hm : unmarshalMessage th.Data with
      | none =>
        have hcp : commentPayload th = none := by
          simp [commentPayload, h1, hm]
        simp [routeThings, routeThing, h1, h2, hm, List.filterMap_cons, hcp, hmp, ih]
      | some v =>
        have hcp : commentPayload th = some v := by
          simp [commentPayload, h1, hm]
        simp [routeThings, routeThing, h1, h2, hm, List.filterMap_cons, hcp, hmp, goAppend, ih]
    · have hcp : commentPayload th = none := by
        simp [commentPayload, h1]
      by_cases h2 : th.Kind = kindMessage
      · cases hm : unmarshalMessage th.Data with
        | none =>
          have hmp : messagePayload th = none := by
            simp [messagePayload, h2, hm]
          simp [routeThings, routeThing, h1, h2, hm, hne, List.filterMap_cons, hcp, hmp, ih]
        | some v =>
          have hmp : messagePayload th = some v := by
            simp [messagePayload, h2, hm]
          simp [routeThings, routeThing, h1, h2, hm, hne, List.filterMap_cons, hcp, hmp, goAppend, ih]
      · have hmp : messagePayload th = none := by
          simp [messagePayload, h2]
        simp [routeThings, routeThing, h1, h2, List.filterMap_cons, hcp, hmp, ih]

/-- `filterMap` and `filter` agree in length when the predicate is
success of the partial map. -/
theorem filterMap_length_eq_count (f : thing → Option Message) (p : thing → Bool)
    (hf : ∀ th, (f th).isSome = p th) (l : List thing) :
    (l.filterMap f).length = (l.filter p).length := by
  induction l with
  | nil => simp
  | cons th rest ih =>
    have hp := hf th
    cases hm : f th with
    | none =>
      rw [hm] at hp
      simp [List.filterMap_cons, List.filter_cons, hm, ← hp, ih]
    | some v =>
      rw [hm] at hp
      simp [List.filterMap_cons, List.filter_cons, hm, ← hp, ih]

/-- A comment payload succeeds exactly on comment-kind children whose
data decodes. -/
theorem commentPayload_isSome (th : thing) :
    (commentPayload th).isSome =
      (decide (th.Kind = kindComment) && (unmarshalMessage th.Data).isSome) := by
  by_cases h : th.Kind = kindComment <;> simp [commentPayload, h]

/-- A message payload succeeds exactly on message-kind children whose
data decodes. -/
theorem messagePayload_isSome (th : thing) :
    (messagePayload th).isSome =
      (decide (th.Kind = kindMessage) && (unmarshalMessage th.Data).isSome) := by
  by_cases h : th.Kind = kindMessage <;> simp [messagePayload, h]

/-! The claims. -/

/-- C2: for every children array that parses as `ths` (N things in
all), the decode succeeds and each bucket is exactly the in-order
sequence of successfully decoded payloads of the matching kind, whose
length is exactly the number K of children that match that kind with a
valid payload. -/
theorem claim_C2_bucket_exact (t : inboxThings) (cs : List Json) (ths : List thing)
    (h : unmarshalListThing (Json.arr cs) = Except.ok ths) :
    inboxThings.UnmarshalJSON t (Json.arr cs) =
      Except.ok { Comments := some (ths.filterMap commentPayload),
                  Messages := some (ths.filterMap messagePayload) } ∧
    (ths.filterMap commentPayload).length =
      (ths.filter fun th => decide (th.Kind = kindComment) && (unmarshalMessage th.Data).isSome).length ∧
    (ths.filterMap messagePayload).length =
      (ths.filter fun th => decide (th.Kind = kindMessage) && (unmarshalMessage th.Data).isSome).length := by
  refine ⟨?_, ?_, ?_⟩
  · simp [inboxThings.UnmarshalJSON, inboxThings.init, h, routeThings_some]
  · exact filterMap_length_eq_count _ _ commentPayload_isSome ths
  · exact filterMap_length_eq_count _ _ messagePayload_isSome ths

/-- C2 witness: a four-child array (valid comment, valid message,
unknown kind, malformed comment) decodes with one item per recognized
bucket. -/
theorem claim_C2_witness :
    unmarshalListThing (Json.arr [childCommentValid, childMessageValid, childUnknownKind, childMalformed]) =
      Except.ok [thingCommentValid, thingMessageValid, thingUnknownKind, thingMalformed] ∧
    (inboxThings.UnmarshalJSON {} (Json.arr [childCommentValid, childMessageValid, childUnknownKind, childMalformed]) =
      Except.ok { Comments := some ([thingCommentValid, thingMessageValid, thingUnknownKind, thingMalformed].filterMap commentPayload),
                  Messages := some ([thingCommentValid, thingMessageValid, thingUnknownKind, thingMalformed].filterMap messagePayload) } ∧
     ([thingCommentValid, thingMessageValid, thingUnknownKind, thingMalformed].filterMap commentPayload).length =
       ([thingCommentValid, thingMessageValid, thingUnknownKind, thingMalformed].filter fun th =>
         decide (th.Kind = kindComment) && (unmarshalMessage th.Data).isSome).length ∧
     ([thingCommentValid, thingMessageValid, thingUnknownKind, thingMalformed].filterMap messagePayload).length =
       ([thingCommentValid, thingMessageValid, thingUnknownKind, thingMalformed].filter fun th =>
         decide (th.Kind = kindMessage) && (unmarshalMessage th.Data).isSome).length) :=
  ⟨by rfl,
   claim_C2_bucket_exact {} [childCommentValid, childMessageValid, childUnknownKind, childMalformed]
     [thingCommentValid, thingMessageValid, thingUnknownKind, thingMalformed] (by rfl)⟩

/-- C1: when the children array parses and one child's data payload
fails to decode into a `Message`, the batch decode still succeeds and
the buckets are exactly those of the remaining children: the failed
child is silently dropped and every other valid child still appears. -/
theorem claim_C1_malformed_child_dropped (t : inboxThings) (cs : List Json)
    (l1 l2 : List thing) (bad : thing)
    (hp : unmarshalListThing (Json.arr cs) = Except.ok (l1 ++ bad :: l2))
    (hbad : unmarshalMessage bad.Data = none) :
    inboxThings.UnmarshalJSON t (Json.arr cs) =
      Except.ok { Comments := some ((l1 ++ l2).filterMap commentPayload),
                  Messages := some ((l1 ++ l2).filterMap messagePayload) } := by
  have hc : commentPayload bad = none := by
    simp [commentPayload, hbad]
  have hm2 : messagePayload bad = none := by
    simp [messagePayload, hbad]
  simp [inboxThings.UnmarshalJSON, inboxThings.init, hp, routeThings_some,
    List.filterMap_append, List.filterMap_cons, hc, hm2]

/-- C1 witness: a malformed comment child mixed with one valid comment
child; the decode succeeds and only the valid comment remains. -/
theorem claim_C1_witness :
    unmarshalListThing (Json.arr [childCommentValid, childMalformed]) =
      Except.ok ([thingCommentValid] ++ thingMalformed :: []) ∧
    unmarshalMessage thingMalformed.Data = none ∧
    inboxThings.UnmarshalJSON {} (Json.arr [childCommentValid, childMalformed]) =
      Except.ok { Comments := some (([thingCommentValid] ++ []).filterMap commentPayload),
                  Messages := some (([thingCommentValid] ++ []).filterMap messagePayload) } :=
  ⟨by rfl, by rfl,
   claim_C1_malformed_child_dropped {} [childCommentValid, childMalformed]
     [thingCommentValid] [] thingMalformed (by rfl) (by rfl)⟩

/-- C4: when the children array parses and one child's kind matches
neither recognized code, that child is dropped, decoding of the rest
continues, and the batch decode does not fail. -/
theorem claim_C4_unknown_kind_dropped (t : inboxThings) (cs : List Json)
    (l1 l2 : List thing) (u : thing)
    (hp : unmarshalListThing (Json.arr cs) = Except.ok (l1 ++ u :: l2))
    (h1 : u.Kind ≠ kindComment) (h2 : u.Kind ≠ kindMessage) :
    inboxThings.UnmarshalJSON t (Json.arr cs) =
      Except.ok { Comments := some ((l1 ++ l2).filterMap commentPayload),
                  Messages := some ((l1 ++ l2).filterMap messagePayload) } := by
  have hc : commentPayload u = none := by
    simp [commentPayload, h1]
  have hm2 : messagePayload u = none := by
    simp [messagePayload, h2]
  simp [inboxThings.UnmarshalJSON, inboxThings.init, hp, routeThings_some,
    List.filterMap_append, List.filterMap_cons, hc, hm2]

/-- C4 witness: an unknown-kind child ahead of a valid message child is
dropped while the message child decodes. -/
theorem claim_C4_witness :
    unmarshalListThing (Json.arr [childUnknownKind, childMessageValid]) =
      Except.ok ([] ++ thingUnknownKind :: [thingMessageValid]) ∧
    thingUnknownKind.Kind ≠ kindComment ∧ thingUnknownKind.Kind ≠ kindMessage ∧
    inboxThings.UnmarshalJSON {} (Json.arr [childUnknownKind, childMessageValid]) =
      Except.ok { Comments := some (([] ++ [thingMessageValid]).filterMap commentPayload),
                  Messages := some (([] ++ [thingMessageValid]).filterMap messagePayload) } :=
  ⟨by rfl, by decide, by decide,
   claim_C4_unknown_kind_dropped {} [childUnknownKind, childMessageValid]
     [] [thingMessageValid] thingUnknownKind (by rfl) (by decide) (by decide)⟩

/-- Unmarshalling a JSON value that is neither an object nor `null` into
an `inboxListing` is a type error. -/
theorem unmarshalInboxListing_not_obj (l : inboxListing) (v : Json)
    (hv1 : v ≠ Json.null) (hv2 : ∀ fs, v ≠ Json.obj fs) :
    unmarshalInboxListing l v = Except.error () := by
  cases v with
  | null => exact absurd rfl hv1
  | obj fs => exact absurd rfl (hv2 fs)
  | bool b => rfl
  | num n => rfl
  | str s => rfl
  | arr es => rfl

/-- C3: for every heterogeneous listing payload that decodes
successfully, both named views carry exactly the outer envelope's after
and before strings, so the two views' cursors are also identical to
each other; the empty string passes through unchanged. -/
theorem claim_C3_cursors_shared (k c : Json) (a b : String) (l : rootInboxListing)
    (h : unmarshalRootInboxListing
        (Json.obj [("kind", k),
          ("data", Json.obj [("children", c), ("after", Json.str a), ("before", Json.str b)])]) =
      Except.ok l) :
    l.getComments.After = a ∧ l.getComments.Before = b ∧
    l.getMessages.After = a ∧ l.getMessages.Before = b ∧
    l.getComments.After = l.getMessages.After ∧
    l.getComments.Before = l.getMessages.Before := by
  cases k with
  | null =>
    cases ht : inboxThings.UnmarshalJSON { Comments := none, Messages := none } c with
    | error e =>
      simp [unmarshalRootInboxListing, unmarshalRootInboxListingFields, applyRootInboxListingField,
        unmarshalInboxListing, unmarshalInboxListingFields, applyInboxListingField,
        unmarshalGoString, ht, Except.map] at h
    | ok th =>
      simp [unmarshalRootInboxListing, unmarshalRootInboxListingFields, applyRootInboxListingField,
        unmarshalInboxListing, unmarshalInboxListingFields, applyInboxListingField,
        unmarshalGoString, ht, Except.map] at h
      rw [← h]
      simp [rootInboxListing.getComments, rootInboxListing.getMessages]
  | str s =>
    cases ht : inboxThings.UnmarshalJSON { Comments := none, Messages := none } c with
    | error e =>
      simp [unmarshalRootInboxListing, unmarshalRootInboxListingFields, applyRootInboxListingField,
        unmarshalInboxListing, unmarshalInboxListingFields, applyInboxListingField,
        unmarshalGoString, ht, Except.map] at h
    | ok th =>
      simp [unmarshalRootInboxListing, unmarshalRootInboxListingFields, applyRootInboxListingField,
        unmarshalInboxListing, unmarshalInboxListingFields, applyInboxListingField,
        unmarshalGoString, ht, Except.map] at h
      rw [← h]
      simp [rootInboxListing.getComments, rootInboxListing.getMessages]
  | bool bb =>
    simp [unmarshalRootInboxListing, unmarshalRootInboxListingFields, applyRootInboxListingField,
      unmarshalGoString, Except.map] at h
  | num n =>
    simp [unmarshalRootInboxListing, unmarshalRootInboxListingFields, applyRootInboxListingField,
      unmarshalGoString, Except.map] at h
  | arr es =>
    simp [unmarshalRootInboxListing, unmarshalRootInboxListingFields, applyRootInboxListingField,
      unmarshalGoString, Except.map] at h
  | obj fs2 =>
    simp [unmarshalRootInboxListing, unmarshalRootInboxListingFields, applyRootInboxListingField,
      unmarshalGoString, Except.map] at h

/-- C3 witness: a one-comment listing with after "next1" and an
empty-string before decodes with both views reporting exactly those
cursors. -/
theorem claim_C3_witness :
    unmarshalRootInboxListing
        (Json.obj [("kind", Json.str "Listing"),
          ("data", Json.obj [("children", Json.arr [childCommentValid]),
            ("after", Json.str "next1"), ("before", Json.str "")])]) =
      Except.ok { Kind := "Listing",
                  Data := { Things := { Comments := some [{ ID := "c1", IsComment := true }],
                                        Messages := some [] },
                            After := "next1", Before := "" } } ∧
    (({ Kind := "Listing",
        Data := { Things := { Comments := some [{ ID := "c1", IsComment := true }],
                              Messages := some [] },
                  After := "next1", Before := "" } } : rootInboxListing).getComments.After = "next1" ∧
     ({ Kind := "Listing",
        Data := { Things := { Comments := some [{ ID := "c1", IsComment := true }],
                              Messages := some [] },
                  After := "next1", Before := "" } } : rootInboxListing).getComments.Before = "") :=
  ⟨by rfl,
   ((claim_C3_cursors_shared (Json.str "Listing") (Json.arr [childCommentValid]) "next1" "" _ (by rfl)).1),
   ((claim_C3_cursors_shared (Json.str "Listing") (Json.arr [childCommentValid]) "next1" "" _ (by rfl)).2.1)⟩

/-- C5 counterexample: the envelope `{"kind":"Listing"}` has no data
object at all, yet the decode entry point returns success (with the
zero-valued listing), not a decode error. -/
theorem claim_C5_counterexample :
    unmarshalRootInboxListing (Json.obj [("kind", Json.str "Listing")]) =
      Except.ok { Kind := "Listing", Data := {} } ∧
    unmarshalRootInboxListing (Json.obj [("kind", Json.str "Listing")]) ≠ Except.error () := by
  constructor
  · rfl
  · intro hc
    rw [show unmarshalRootInboxListing (Json.obj [("kind", Json.str "Listing")]) =
        Except.ok { Kind := "Listing", Data := {} } from rfl] at hc
    exact Except.noConfusion hc

/-- C5 amended: a present `data` value that is neither an object nor
null is a decode error, and a present `children` value that fails to
parse as an array of things (in particular any non-array non-null
value) is a decode error; in both cases no result is returned. A merely
absent `data` (or `children`) key, however, decodes successfully into
the zero value. -/
theorem claim_C5_amended_envelope_errors (k k2 v w : Json)
    (hv1 : v ≠ Json.null) (hv2 : ∀ fs, v ≠ Json.obj fs)
    (hw : unmarshalListThing w = Except.error ()) :
    unmarshalRootInboxListing (Json.obj [("kind", k), ("data", v)]) = Except.error () ∧
    unmarshalRootInboxListing (Json.obj [("kind", k2), ("data", Json.obj [("children", w)])]) = Except.error () := by
  have hdata : unmarshalInboxListing ({} : inboxListing) v = Except.error () :=
    unmarshalInboxListing_not_obj {} v hv1 hv2
  constructor
  · cases hk : unmarshalGoString "" k with
    | error e =>
      cases e
      simp [unmarshalRootInboxListing, unmarshalRootInboxListingFields,
        applyRootInboxListingField, hk, Except.map]
    | ok s =>
      simp [unmarshalRootInboxListing, unmarshalRootInboxListingFields,
        applyRootInboxListingField, hk, Except.map, hdata]
  · cases hk : unmarshalGoString "" k2 with
    | error e =>
      cases e
      simp [unmarshalRootInboxListing, unmarshalRootInboxListingFields,
        applyRootInboxListingField, hk, Except.map]
    | ok s =>
      simp [unmarshalRootInboxListing, unmarshalRootInboxListingFields, applyRootInboxListingField,
        unmarshalInboxListing, unmarshalInboxListingFields, applyInboxListingField,
        inboxThings.UnmarshalJSON, hk, hw, Except.map]

/-- C5 witness: a numeric data value and a numeric children value both
surface as decode errors. -/
theorem claim_C5_witness :
    (Json.num 0 ≠ Json.null) ∧
    unmarshalListThing (Json.num 1) = Except.error () ∧
    unmarshalRootInboxListing (Json.obj [("kind", Json.str "Listing"), ("data", Json.num 0)]) =
      Except.error () ∧
    unmarshalRootInboxListing
        (Json.obj [("kind", Json.str "Listing"), ("data", Json.obj [("children", Json.num 1)])]) =
      Except.error () :=
  ⟨fun h => Json.noConfusion h, rfl,
   (claim_C5_amended_envelope_errors (Json.str "Listing") (Json.str "Listing") (Json.num 0) (Json.num 1)
     (fun h => Json.noConfusion h) (fun _fs h => Json.noConfusion h) rfl).1,
   (claim_C5_amended_envelope_errors (Json.str "Listing") (Json.str "Listing") (Json.num 0) (Json.num 1)
     (fun h => Json.noConfusion h) (fun _fs h => Json.noConfusion h) rfl).2⟩

/-- C6: a payload whose children array is empty decodes successfully
and both buckets are the non-nil empty slice, whatever the kind string
and cursors are. -/
theorem claim_C6_empty_children (k a b : String) :
    unmarshalRootInboxListing
        (Json.obj [("kind", Json.str k),
          ("data", Json.obj [("children", Json.arr []),
            ("after", Json.str a), ("before", Json.str b)])]) =
      Except.ok { Kind := k,
                  Data := { Things := { Comments := some [], Messages := some [] },
                            After := a, Before := b } } := by
  rfl

/-- C7 counterexample: the envelope `{"kind":"Listing"}` decodes
successfully through the entry point, yet its Comments bucket is the
nil slice, refuting the claim that every successfully decoded listing
has non-null buckets. -/
theorem claim_C7_counterexample :
    ¬ (∀ l : rootInboxListing,
        unmarshalRootInboxListing (Json.obj [("kind", Json.str "Listing")]) = Except.ok l →
        l.Data.Things.Comments ≠ none ∧ l.Data.Things.Messages ≠ none) := by
  intro hall
  exact (hall { Kind := "Listing", Data := {} } rfl).1 rfl

/-- C7 amended: whenever the children key is present so that
`inboxThings.UnmarshalJSON` actually runs and succeeds, both buckets
are non-nil (even with zero matches); but an envelope lacking the data
or children key decodes successfully with the zero-valued nil buckets,
so the claim does not hold of every successful decode. -/
theorem claim_C7_amended_buckets_nonnil (t res : inboxThings) (j : Json)
    (h : inboxThings.UnmarshalJSON t j = Except.ok res) :
    (∃ xs, res.Comments = some xs) ∧ (∃ ys, res.Messages = some ys) := by
  simp only [inboxThings.UnmarshalJSON, inboxThings.init] at h
  cases hl : unmarshalListThing j with
  | error e =>
    rw [hl] at h
    exact Except.noConfusion h
  | ok ths =>
    rw [hl] at h
    have hres := Except.ok.inj h
    rw [← hres, routeThings_some]
    exact ⟨⟨_, rfl⟩, ⟨_, rfl⟩⟩

/-- C7 witness: an empty children array decoded into a receiver with
nil buckets yields non-nil empty buckets. -/
theorem claim_C7_witness :
    inboxThings.UnmarshalJSON { Comments := none, Messages := none } (Json.arr []) =
      Except.ok { Comments := some [], Messages := some [] } ∧
    ((∃ xs, ({ Comments := some [], Messages := some [] } : inboxThings).Comments = some xs) ∧
     (∃ ys, ({ Comments := some [], Messages := some [] } : inboxThings).Messages = some ys)) :=
  ⟨rfl,
   claim_C7_amended_buckets_nonnil { Comments := none, Messages := none }
     { Comments := some [], Messages := some [] } (Json.arr []) rfl⟩

/-- C8 counterexample: the comment-kind child `{"kind":"t1","data":
{"id":"c1"}}` decodes successfully into the Comments bucket with
IsComment = false (the payload has no was_comment field), refuting that
items from the comment-reply kind have isComment = true by virtue of
the matched kind. -/
theorem claim_C8_counterexample :
    ¬ (∀ res : inboxThings,
        inboxThings.UnmarshalJSON { Comments := none, Messages := none }
            (Json.arr [Json.obj [("kind", Json.str "t1"), ("data", Json.obj [("id", Json.str "c1")])]]) =
          Except.ok res →
        ∀ m ∈ res.Comments.getD [], m.IsComment = true) := by
  intro hall
  have hm := hall { Comments := some [{ ID := "c1" }], Messages := some [] } rfl
    { ID := "c1" } (by simp)
  exact Bool.false_ne_true hm

/-- C8 amended: both recognized kinds decode the data payload through
the same `Message` decode (the same item shape); which kind matched
determines only the bucket, while the item's IsComment flag is decoded
from the payload's was_comment field (remaining false when the field is
absent), not derived from the kind. -/
theorem claim_C8_amended_same_shape (d : Option Json) (m : Message) (b : Bool)
    (h : unmarshalMessage d = some m) :
    routeThing { Comments := some [], Messages := some [] } { Kind := kindComment, Data := d } =
      { Comments := some [m], Messages := some [] } ∧
    routeThing { Comments := some [], Messages := some [] } { Kind := kindMessage, Data := d } =
      { Comments := some [], Messages := some [m] } ∧
    unmarshalMessage (some (Json.obj [("was_comment", Json.bool b)])) =
      some { IsComment := b } := by
  have hne : ¬ (kindMessage = kindComment) := fun hh => kindComment_ne_kindMessage hh.symm
  refine ⟨?_, ?_, ?_⟩
  · simp [routeThing, h, goAppend]
  · simp [routeThing, h, hne, goAppend]
  · rfl

/-- C8 witness: the same payload lands in the Comments bucket under the
comment kind and in the Messages bucket under the message kind, and a
was_comment field of true decodes into IsComment = true. -/
theorem claim_C8_witness :
    unmarshalMessage (some (Json.obj [("id", Json.str "x")])) = some { ID := "x" } ∧
    (routeThing { Comments := some [], Messages := some [] }
        { Kind := kindComment, Data := some (Json.obj [("id", Json.str "x")]) } =
      { Comments := some [{ ID := "x" }], Messages := some [] } ∧
     routeThing { Comments := some [], Messages := some [] }
        { Kind := kindMessage, Data := some (Json.obj [("id", Json.str "x")]) } =
      { Comments := some [], Messages := some [{ ID := "x" }] } ∧
     unmarshalMessage (some (Json.obj [("was_comment", Json.bool true)])) =
       some { IsComment := true }) :=
  ⟨rfl,
   claim_C8_amended_same_shape (some (Json.obj [("id", Json.str "x")])) { ID := "x" } true rfl⟩

/-- C9: decoding is deterministic and pure: any two runs of the decode
entry point on the same parsed input yield equal results, and the
children decode does not depend on the receiver's prior contents
(`init` clears it first), so repeated decodes agree structurally. -/
theorem claim_C9_decode_pure (t1 t2 : inboxThings) (j : Json) (r1 r2 : Except Unit rootInboxListing)
    (h1 : unmarshalRootInboxListing j = r1) (h2 : unmarshalRootInboxListing j = r2) :
    r1 = r2 ∧ inboxThings.UnmarshalJSON t1 j = inboxThings.UnmarshalJSON t2 j := by
  constructor
  · rw [← h1, ← h2]
  · rfl

/-- C9 witness: two decodes of a null document agree, and the children
decode of an empty array is independent of the receiver's prior
state. -/
theorem claim_C9_witness :
    unmarshalRootInboxListing Json.null = Except.ok {} ∧
    ((Except.ok ({} : rootInboxListing) : Except Unit rootInboxListing) = Except.ok {} ∧
     inboxThings.UnmarshalJSON { Comments := none, Messages := none } Json.null =
       inboxThings.UnmarshalJSON { Comments := some [{ ID := "z" }], Messages := none } Json.null) :=
  ⟨rfl,
   claim_C9_decode_pure { Comments := none, Messages := none }
     { Comments := some [{ ID := "z" }], Messages := none } Json.null
     (Except.ok {}) (Except.ok {}) rfl rfl⟩

/-- C10: each of Read, Unread, Collapse and Uncollapse rejects an empty
id list with the error "must provide at least 1 id" before any request
exists, and with at least one id builds a POST whose single form field
"id" is the comma-join of the ids. -/
theorem claim_C10_id_guard (ids : List String) (h : ids ≠ []) :
    (MessageService.Read [] = Except.error "must provide at least 1 id" ∧
     MessageService.Unread [] = Except.error "must provide at least 1 id" ∧
     MessageService.Collapse [] = Except.error "must provide at least 1 id" ∧
     MessageService.Uncollapse [] = Except.error "must provide at least 1 id") ∧
    (MessageService.Read ids =
       Except.ok { method := "POST", path := "api/read_message", form := [("id", stringsJoin ids ",")] } ∧
     MessageService.Unread ids =
       Except.ok { method := "POST", path := "api/unread_message", form := [("id", stringsJoin ids ",")] } ∧
     MessageService.Collapse ids =
       Except.ok { method := "POST", path := "api/collapse_message", form := [("id", stringsJoin ids ",")] } ∧
     MessageService.Uncollapse ids =
       Except.ok { method := "POST", path := "api/uncollapse_message", form := [("id", stringsJoin ids ",")] }) := by
  have hl : ¬ (ids.length = 0) := by
    simpa using h
  refine ⟨⟨rfl, rfl, rfl, rfl⟩, ?_⟩
  simp [MessageService.Read, MessageService.Unread, MessageService.Collapse,
    MessageService.Uncollapse, hl]

/-- C10 witness: two ids are joined with a comma into the single "id"
form field, and the empty list is rejected. -/
theorem claim_C10_witness :
    (["abc", "def"] : List String) ≠ [] ∧
    MessageService.Read ["abc", "def"] =
      Except.ok { method := "POST", path := "api/read_message", form := [("id", "abc,def")] } ∧
    MessageService.Read [] = Except.error "must provide at least 1 id" :=
  ⟨by decide,
   ((claim_C10_id_guard ["abc", "def"] (by decide)).2).1,
   ((claim_C10_id_guard ["abc", "def"] (by decide)).1).1⟩

end GoReddit
